import Mathlib

/-!
Verification of the FALCONN C++ wrapper layer
(`src/include/falconn/wrapper/cpp_wrapper_impl.h`).

The embedding translates the wrapper code into Lean: C++ methods that mutate
an object become state-passing functions, and functions that may `throw`
return `Except`. Enum fields become inductive types; the integer fields
(`int_fast32_t`, `int_fast64_t`) are modelled as `Int` (no arithmetic in the
modelled paths can overflow them) and the `uint64_t` seed as `Nat` (XOR with
the fixed constant never leaves the 64-bit range).
-/

namespace Falconn

/-- Modelled from the spec: the `LSHFamily` enum (declared in
`falconn_global.h`, which is not under `src/`): the two hash families plus
the unset/unknown default. -/
inductive LSHFamily where
  | Unknown
  | Hyperplane
  | CrossPolytope
deriving DecidableEq, Repr

/-- Modelled from the spec: the `DistanceFunction` enum (declared in
`falconn_global.h`, not under `src/`): only `NegativeInnerProduct` is
supported, plus the unset/unknown default. -/
inductive DistanceFunction where
  | Unknown
  | NegativeInnerProduct
deriving DecidableEq, Repr

/-- Modelled from the spec: the `LSHConstructionParameters` record (declared
in `falconn_global.h`, not under `src/`), with the fields listed in the
spec's data model and used throughout `cpp_wrapper_impl.h`. -/
structure LSHConstructionParameters where
  dimension : Int
  k : Int
  l : Int
  lsh_family : LSHFamily
  distance_function : DistanceFunction
  num_rotations : Int
  feature_hashing_dimension : Int
  last_cp_dimension : Int
  seed : Nat
deriving DecidableEq, Repr

/-- The distinct `throw` sites of `cpp_wrapper_impl.h`, one constructor per
distinct setup-error message, so that a result identifies which check
failed. -/
inductive SetupError where
  | dimensionError
  | kError
  | lError
  | distanceError
  | numRotationsError
  | lastCpDimensionError
  | featureHashingError
  | unknownFamilyError
  | dimensionUnsetError
  | featureHashingUnsetError
deriving DecidableEq, Repr

/-- The runtime (usage) error thrown by the query facade's
`set_num_probes`. -/
inductive RuntimeError where
  | numProbesError
deriving DecidableEq, Repr

/-- The two supported point representations; in the C++ source these are the
template specializations for `DenseVector` and `SparseVector`. -/
inductive PointRep where
  | Dense
  | Sparse
deriving DecidableEq, Repr

/-- Constructor arguments of `core::HyperplaneHashDense` /
`HyperplaneHashSparse` as passed at `construct_table`
(`new LSH(params.dimension, params.k, params.l, params.seed ^ 93384688)`). -/
structure HPHashData where
  dimension : Int
  k : Int
  l : Int
  seed : Nat
deriving DecidableEq, Repr

/-- Constructor arguments of `core::CrossPolytopeHashDense` as passed in
`PointTypeTraitsInternal<DenseVector>::construct_cp_hash`. -/
structure CPHashDenseData where
  dimension : Int
  k : Int
  l : Int
  num_rotations : Int
  last_cp_dimension : Int
  seed : Nat
deriving DecidableEq, Repr

/-- Constructor arguments of `core::CrossPolytopeHashSparse` as passed in
`PointTypeTraitsInternal<SparseVector>::construct_cp_hash`. -/
structure CPHashSparseData where
  dimension : Int
  k : Int
  l : Int
  num_rotations : Int
  feature_hashing_dimension : Int
  last_cp_dimension : Int
  seed : Nat
deriving DecidableEq, Repr

/-- The constructed LSH function object, tagged by which of the three
constructors built it. -/
inductive LSHObj where
  | hp (d : HPHashData)
  | cpDense (d : CPHashDenseData)
  | cpSparse (d : CPHashSparseData)
deriving DecidableEq, Repr

/-- The internal random seed the LSH object was constructed with. -/
def LSHObj.seed : LSHObj → Nat
  | .hp d => d.seed
  | .cpDense d => d.seed
  | .cpSparse d => d.seed

/-- Modelled from the spec: `get_l` of the LSH function classes
(`hyperplane_hash.h` / `polytope_hash.h`, not under `src/`) returns the
number of repetitions `l` the object was constructed with; the wrapper
constructor uses it to initialize `num_probes_`. -/
def LSHObj.get_l : LSHObj → Int
  | .hp d => d.l
  | .cpDense d => d.l
  | .cpSparse d => d.l

/-- `PointTypeTraitsInternal<PointType>::construct_cp_hash` for the two
specializations. The dense constructor call is
`CPHash(params.dimension, params.k, params.l, params.num_rotations,
params.last_cp_dimension, params.seed ^ 93384688)`; the sparse one
additionally passes `params.feature_hashing_dimension`.

Modelled from the spec: the sparse cross-polytope hash constructor
(`polytope_hash.h`, not under `src/`) rejects an unset (≤ 0)
`feature_hashing_dimension` with a setup error — the source's own comment at
the call site says this field "is checked in the CP hash class", and the
spec requires construction over sparse points to fail when the field is left
unset. -/
def construct_cp_hash (rep : PointRep) (params : LSHConstructionParameters) :
    Except SetupError LSHObj :=
  match rep with
  | .Dense =>
      .ok (.cpDense
        { dimension := params.dimension, k := params.k, l := params.l,
          num_rotations := params.num_rotations,
          last_cp_dimension := params.last_cp_dimension,
          seed := params.seed ^^^ 93384688 })
  | .Sparse =>
      if params.feature_hashing_dimension ≤ 0 then
        .error .featureHashingError
      else
        .ok (.cpSparse
          { dimension := params.dimension, k := params.k, l := params.l,
            num_rotations := params.num_rotations,
            feature_hashing_dimension := params.feature_hashing_dimension,
            last_cp_dimension := params.last_cp_dimension,
            seed := params.seed ^^^ 93384688 })

/-- Ceiling of the base-2 logarithm, fuel-recursive so it evaluates by
kernel reduction. -/
def log2ceilAux : Nat → Nat → Nat
  | 0, _ => 0
  | fuel + 1, n => if n ≤ 1 then 0 else log2ceilAux fuel ((n + 1) / 2) + 1

/-- Ceiling of the base-2 logarithm. -/
def log2ceil (n : Nat) : Nat := log2ceilAux n n

/-- Modelled from the spec:
`core::cp_hash_helpers::compute_k_parameters_for_bits` (`polytope_hash.h`,
not under `src/`) derives `(k, last_cp_dimension)` from the governing
dimension and the requested number of hash bits so that the outcomes of `k`
cross-polytope functions cover `2^number_of_hash_bits`: a full-dimension
block contributes `log2ceil(dimension) + 1` bits (it has `2·dimension`
outcomes), as many full blocks as possible are packed, and
`last_cp_dimension` sizes a final partial block covering the remaining
bits. -/
def compute_k_parameters_for_bits (dimension number_of_hash_bits : Int) :
    Int × Int :=
  let bits_per_function := log2ceil dimension.toNat + 1
  let full := number_of_hash_bits.toNat / bits_per_function
  let rem := number_of_hash_bits.toNat % bits_per_function
  if rem = 0 then ((full : Int), dimension)
  else (((full + 1 : Nat) : Int), (((2 : Nat) ^ (rem - 1) : Nat) : Int))

/-- `ComputeNumberOfHashFunctions<PointType>::compute`, as dispatched by
`falconn::compute_number_of_hash_functions`: writes through `params` (here:
returns the updated record) or throws. The dense specialization checks
`params.dimension`, the sparse one `params.feature_hashing_dimension`. -/
def compute_number_of_hash_functions (rep : PointRep)
    (number_of_hash_bits : Int) (params : LSHConstructionParameters) :
    Except SetupError LSHConstructionParameters :=
  if params.lsh_family = LSHFamily.Hyperplane then
    .ok { params with k := number_of_hash_bits }
  else if params.lsh_family = LSHFamily.CrossPolytope then
    match rep with
    | .Dense =>
        if params.dimension ≤ 0 then .error .dimensionUnsetError
        else
          let kp := compute_k_parameters_for_bits params.dimension
            number_of_hash_bits
          .ok { params with k := kp.1, last_cp_dimension := kp.2 }
    | .Sparse =>
        if params.feature_hashing_dimension ≤ 0 then
          .error .featureHashingUnsetError
        else
          let kp := compute_k_parameters_for_bits
            params.feature_hashing_dimension number_of_hash_bits
          .ok { params with k := kp.1, last_cp_dimension := kp.2 }
  else .error .unknownFamilyError

/-- The post-state of a call on a `params` record that may throw: on success
the updated record, on a throw the record is untouched. -/
def paramsAfter (params : LSHConstructionParameters)
    (r : Except SetupError LSHConstructionParameters) :
    LSHConstructionParameters :=
  match r with
  | .ok q => q
  | .error _ => params

/-- Modelled from the spec: the unlimited-candidates sentinel
`LSHNearestNeighborTable::kNoMaxNumCandidates` (`wrapper.h`, not under
`src/`); a negative sentinel value meaning no candidate cap. -/
def kNoMaxNumCandidates : Int := -1

/-- The state of a built `LSHNNTableWrapper`: the owned LSH object, the
data-storage copy of the points, the size passed to the
`HashTable::Factory`, the number of per-repetition tables the
`StaticCompositeHashTable` was built from, and the two mutable query
knobs. -/
structure Wrapper (α : Type) where
  lsh : LSHObj
  data_storage : List α
  hash_table_factory_size : Nat
  composite_num_tables : Int
  num_probes : Int
  max_num_candidates : Int
deriving DecidableEq, Repr

/-- `wrappers::construction_helper`: wraps the points in a data storage,
allocates a hash-table factory of size `2 * points.size()`, composes
`params.l` per-repetition tables into the composite table, and returns the
wrapper, whose constructor sets `num_probes_ = lsh_->get_l()` and leaves
`max_num_candidates_` at the unlimited sentinel. -/
def construction_helper {α : Type} (points : List α)
    (params : LSHConstructionParameters) (lsh : LSHObj) : Wrapper α :=
  { lsh := lsh
    data_storage := points
    hash_table_factory_size := 2 * points.length
    composite_num_tables := params.l
    num_probes := lsh.get_l
    max_num_candidates := kNoMaxNumCandidates }

/-- `falconn::construct_table`: the validation chain and family dispatch,
exactly in source order. -/
def construct_table {α : Type} (rep : PointRep) (points : List α)
    (params : LSHConstructionParameters) :
    Except SetupError (Wrapper α) :=
  if params.dimension < 1 then .error .dimensionError
  else if params.k < 1 then .error .kError
  else if params.l < 1 then .error .lError
  else if params.distance_function ≠ DistanceFunction.NegativeInnerProduct
    then .error .distanceError
  else if params.lsh_family = LSHFamily.Hyperplane then
    .ok (construction_helper points params (.hp
      { dimension := params.dimension, k := params.k, l := params.l,
        seed := params.seed ^^^ 93384688 }))
  else if params.lsh_family = LSHFamily.CrossPolytope then
    if params.num_rotations < 0 then .error .numRotationsError
    else if params.last_cp_dimension ≤ 0 then .error .lastCpDimensionError
    else
      match construct_cp_hash rep params with
      | .error e => .error e
      | .ok lsh => .ok (construction_helper points params lsh)
  else .error .unknownFamilyError

/-- `LSHNNTableWrapper::set_num_probes`: throws a runtime error for
`num_probes <= 0`, otherwise assigns the field. -/
def set_num_probes {α : Type} (w : Wrapper α) (num_probes : Int) :
    Except RuntimeError (Wrapper α) :=
  if num_probes ≤ 0 then .error .numProbesError
  else .ok { w with num_probes := num_probes }

/-- `LSHNNTableWrapper::get_num_probes`: reads the field; the method body
performs no assignment, so the state out is the state in. -/
def get_num_probes {α : Type} (w : Wrapper α) : Int × Wrapper α :=
  (w.num_probes, w)

/-- `LSHNNTableWrapper::set_max_num_candidates`: unconditional assignment,
no validation. -/
def set_max_num_candidates {α : Type} (w : Wrapper α)
    (max_num_candidates : Int) : Wrapper α :=
  { w with max_num_candidates := max_num_candidates }

/-- `LSHNNTableWrapper::get_max_num_candidates`: reads the field; no
assignment, so the state out is the state in. -/
def get_max_num_candidates {α : Type} (w : Wrapper α) : Int × Wrapper α :=
  (w.max_num_candidates, w)

/-- The post-state of a facade setter that may throw: on success the updated
wrapper, on a throw the wrapper is untouched. -/
def wrapperAfter {α : Type} (w : Wrapper α)
    (r : Except RuntimeError (Wrapper α)) : Wrapper α :=
  match r with
  | .ok w2 => w2
  | .error _ => w

/-- Validity of a parameters record for `construct_table` with point
representation `rep`: the four unconditional checks, a known family, and
the family-specific fields (for `CrossPolytope`: non-negative
`num_rotations`, positive `last_cp_dimension`, and for sparse points a set
`feature_hashing_dimension`). -/
def valid_params (rep : PointRep) (p : LSHConstructionParameters) : Prop :=
  1 ≤ p.dimension ∧ 1 ≤ p.k ∧ 1 ≤ p.l ∧
  p.distance_function = DistanceFunction.NegativeInnerProduct ∧
  (p.lsh_family = LSHFamily.Hyperplane ∨
    (p.lsh_family = LSHFamily.CrossPolytope ∧ 0 ≤ p.num_rotations ∧
      1 ≤ p.last_cp_dimension ∧
      (rep = PointRep.Sparse → 1 ≤ p.feature_hashing_dimension)))

/-- The field of the parameters record that governs the cross-polytope
hash-bit derivation: the raw dimension for dense points, the feature-hashing
dimension for sparse points. -/
def governing_dimension (rep : PointRep) (p : LSHConstructionParameters) :
    Int :=
  match rep with
  | .Dense => p.dimension
  | .Sparse => p.feature_hashing_dimension

/-- A fully valid dense Hyperplane parameters record, used to instantiate
universally quantified theorems at a concrete input. -/
def pHPValid : LSHConstructionParameters :=
  { dimension := 128, k := 8, l := 10, lsh_family := .Hyperplane,
    distance_function := .NegativeInnerProduct, num_rotations := 0,
    feature_hashing_dimension := -1, last_cp_dimension := -1, seed := 11 }

/-- A concrete record with `dimension = 0` and every other field valid. -/
def pZeroDim : LSHConstructionParameters :=
  { pHPValid with dimension := 0 }

/-- A sparse CrossPolytope record with the C2 field values and
`feature_hashing_dimension` left at the unset default `-1`. -/
def pSparseCPUnset : LSHConstructionParameters :=
  { dimension := 100, k := 2, l := 3, lsh_family := .CrossPolytope,
    distance_function := .NegativeInnerProduct, num_rotations := 2,
    feature_hashing_dimension := -1, last_cp_dimension := 4, seed := 11 }

/-- A concrete built wrapper over three points, as produced by a Hyperplane
construction with `l = 10`. -/
def wEx : Wrapper Nat :=
  { lsh := .hp { dimension := 128, k := 8, l := 10, seed := 93384699 },
    data_storage := [7, 7, 7], hash_table_factory_size := 6,
    composite_num_tables := 10, num_probes := 10, max_num_candidates := -1 }

/-- The wrapper produced by the valid Hyperplane construction over the
empty dense point set. -/
def wHPValid : Wrapper Nat :=
  construction_helper [] pHPValid
    (.hp { dimension := 128, k := 8, l := 10, seed := 11 ^^^ 93384688 })

/-- The record the dense CrossPolytope derivation produces from
`pSparseCPUnset` at 7 hash bits: only `k` and `last_cp_dimension`
change. -/
def pCPDerived : LSHConstructionParameters :=
  { pSparseCPUnset with k := 1, last_cp_dimension := 64 }

/-- C1: `construct_table` validation fails fast with a setup error
classified by the first invalid field, in this precedence order:
`dimension < 1`, then `k < 1`, then `l < 1`, then `distance_function` not
`NegativeInnerProduct`, then (only for the `CrossPolytope` family)
`num_rotations < 0`, then `last_cp_dimension < 1`; in particular, for
`dimension < 1` (so for `dimension = 0`) construction fails with the
dimension setup error regardless of every other field, and a failing check
returns before any wrapper state is built. -/
theorem construct_table_validation_order {α : Type} (rep : PointRep)
    (points : List α) (p : LSHConstructionParameters) :
    (p.dimension < 1 →
      construct_table rep points p = .error .dimensionError) ∧
    (1 ≤ p.dimension → p.k < 1 →
      construct_table rep points p = .error .kError) ∧
    (1 ≤ p.dimension → 1 ≤ p.k → p.l < 1 →
      construct_table rep points p = .error .lError) ∧
    (1 ≤ p.dimension → 1 ≤ p.k → 1 ≤ p.l →
      p.distance_function ≠ DistanceFunction.NegativeInnerProduct →
      construct_table rep points p = .error .distanceError) ∧
    (1 ≤ p.dimension → 1 ≤ p.k → 1 ≤ p.l →
      p.distance_function = DistanceFunction.NegativeInnerProduct →
      p.lsh_family = LSHFamily.CrossPolytope → p.num_rotations < 0 →
      construct_table rep points p = .error .numRotationsError) ∧
    (1 ≤ p.dimension → 1 ≤ p.k → 1 ≤ p.l →
      p.distance_function = DistanceFunction.NegativeInnerProduct →
      p.lsh_family = LSHFamily.CrossPolytope → 0 ≤ p.num_rotations →
      p.last_cp_dimension < 1 →
      construct_table rep points p = .error .lastCpDimensionError) := by
  refine ⟨?_, ?_, ?_, ?_, ?_, ?_⟩
  · intro h1
    unfold construct_table
    rw [if_pos h1]
  · intro hd h2
    unfold construct_table
    rw [if_neg (by omega), if_pos h2]
  · intro hd hk h3
    unfold construct_table
    rw [if_neg (by omega), if_neg (by omega), if_pos h3]
  · intro hd hk hl h4
    unfold construct_table
    rw [if_neg (by omega), if_neg (by omega), if_neg (by omega), if_pos h4]
  · intro hd hk hl hdf hfam h5
    unfold construct_table
    rw [if_neg (by omega), if_neg (by omega), if_neg (by omega),
      if_neg (fun h => h hdf), if_neg (by simp [hfam]), if_pos hfam,
      if_pos h5]
  · intro hd hk hl hdf hfam hr h6
    unfold construct_table
    rw [if_neg (by omega), if_neg (by omega), if_neg (by omega),
      if_neg (fun h => h hdf), if_neg (by simp [hfam]), if_pos hfam,
      if_neg (by omega), if_pos (by omega)]

/-- Witness for C1: at `dimension = 0` with every other field valid,
construction fails with the dimension setup error. -/
theorem construct_table_validation_order_witness :
    construct_table PointRep.Dense ([] : List Nat) pZeroDim
      = .error .dimensionError :=
  (construct_table_validation_order PointRep.Dense [] pZeroDim).1 (by decide)

/-- C2: over sparse points with `lsh_family = CrossPolytope`,
`num_rotations = 2`, `last_cp_dimension = 4`, and
`feature_hashing_dimension` left unset (≤ 0), `construct_table` fails with
a setup error: construction fails whenever the representation is sparse and
the feature-hashing dimension is unset. -/
theorem sparse_cp_unset_feature_dim_fails {α : Type} (points : List α)
    (p : LSHConstructionParameters)
    (hfam : p.lsh_family = LSHFamily.CrossPolytope)
    (hrot : p.num_rotations = 2) (hlcd : p.last_cp_dimension = 4)
    (hfhd : p.feature_hashing_dimension ≤ 0) :
    ∃ e, construct_table PointRep.Sparse points p = .error e := by
  unfold construct_table
  by_cases h1 : p.dimension < 1
  · exact ⟨_, by rw [if_pos h1]⟩
  rw [if_neg h1]
  by_cases h2 : p.k < 1
  · exact ⟨_, by rw [if_pos h2]⟩
  rw [if_neg h2]
  by_cases h3 : p.l < 1
  · exact ⟨_, by rw [if_pos h3]⟩
  rw [if_neg h3]
  by_cases h4 : p.distance_function ≠ DistanceFunction.NegativeInnerProduct
  · exact ⟨_, by rw [if_pos h4]⟩
  rw [if_neg h4, if_neg (by simp [hfam]), if_pos hfam, if_neg (by omega),
    if_neg (by omega)]
  refine ⟨SetupError.featureHashingError, ?_⟩
  have hc : construct_cp_hash PointRep.Sparse p
      = Except.error SetupError.featureHashingError := by
    unfold construct_cp_hash
    rw [if_pos hfhd]
  rw [hc]

/-- Witness for C2: the concrete sparse CrossPolytope record with an unset
feature-hashing dimension fails to construct. -/
theorem sparse_cp_unset_feature_dim_fails_witness :
    ∃ e, construct_table PointRep.Sparse ([] : List (List (Nat × Int)))
      pSparseCPUnset = .error e :=
  sparse_cp_unset_feature_dim_fails [] pSparseCPUnset (by decide) (by decide)
    (by decide) (by decide)

/-- C3: for every point set and every valid parameters record,
`construct_table` succeeds and the returned index has `num_probes = l` and
`max_num_candidates` equal to the unlimited sentinel. -/
theorem construct_table_valid_success {α : Type} (rep : PointRep)
    (points : List α) (p : LSHConstructionParameters)
    (hv : valid_params rep p) :
    ∃ w, construct_table rep points p = .ok w ∧
      w.num_probes = p.l ∧ w.max_num_candidates = kNoMaxNumCandidates := by
  obtain ⟨hd, hk, hl, hdf, hfam⟩ := hv
  unfold construct_table
  rw [if_neg (by omega), if_neg (by omega), if_neg (by omega),
    if_neg (fun h => h hdf)]
  rcases hfam with hH | ⟨hC, hr, hlcd, hfhd⟩
  · rw [if_pos hH]
    exact ⟨_, rfl, rfl, rfl⟩
  · rw [if_neg (by simp [hC]), if_pos hC, if_neg (by omega),
      if_neg (by omega)]
    cases rep with
    | Dense =>
        exact ⟨_, rfl, rfl, rfl⟩
    | Sparse =>
        have hf1 : ¬ p.feature_hashing_dimension ≤ 0 := by
          have := hfhd rfl
          omega
        unfold construct_cp_hash
        rw [if_neg hf1]
        exact ⟨_, rfl, rfl, rfl⟩

/-- Witness for C3: the concrete valid Hyperplane record constructs an index
with `num_probes = l = 10` and an uncapped candidate budget. -/
theorem construct_table_valid_success_witness :
    ∃ w, construct_table PointRep.Dense ([] : List Nat) pHPValid = .ok w ∧
      w.num_probes = pHPValid.l ∧
      w.max_num_candidates = kNoMaxNumCandidates :=
  construct_table_valid_success PointRep.Dense [] pHPValid
    ⟨by decide, by decide, by decide, by decide, Or.inl (by decide)⟩

/-- C4: `set_num_probes p` with `p ≤ 0` fails with the runtime error and the
facade's `num_probes` keeps its prior value; with `p ≥ 1` it succeeds and
replaces exactly the `num_probes` field. -/
theorem set_num_probes_spec {α : Type} (w : Wrapper α) (q : Int) :
    (q ≤ 0 → set_num_probes w q = .error .numProbesError ∧
      wrapperAfter w (set_num_probes w q) = w) ∧
    (1 ≤ q → set_num_probes w q = .ok { w with num_probes := q }) := by
  constructor
  · intro h
    have he : set_num_probes w q = .error .numProbesError := by
      unfold set_num_probes
      rw [if_pos h]
    refine ⟨he, ?_⟩
    rw [he]
    rfl
  · intro h
    unfold set_num_probes
    rw [if_neg (by omega)]

/-- Witness for C4: `set_num_probes 0` and `set_num_probes (-1)` fail and
leave the knob untouched; `set_num_probes 3` replaces it with 3. -/
theorem set_num_probes_spec_witness :
    (set_num_probes wEx 0 = .error .numProbesError ∧
      wrapperAfter wEx (set_num_probes wEx 0) = wEx) ∧
    (set_num_probes wEx (-1) = .error .numProbesError ∧
      wrapperAfter wEx (set_num_probes wEx (-1)) = wEx) ∧
    set_num_probes wEx 3 = .ok { wEx with num_probes := 3 } :=
  ⟨(set_num_probes_spec wEx 0).1 (by decide),
   (set_num_probes_spec wEx (-1)).1 (by decide),
   (set_num_probes_spec wEx 3).2 (by decide)⟩

/-- C5: for every `number_of_hash_bits ≥ 1` and both point representations,
`compute_number_of_hash_functions` with `lsh_family = Hyperplane` succeeds
and sets `k` to exactly the number of hash bits. -/
theorem hyperplane_k_equals_bits (rep : PointRep) (b : Int)
    (p : LSHConstructionParameters) (_hb : 1 ≤ b)
    (hfam : p.lsh_family = LSHFamily.Hyperplane) :
    ∃ q, compute_number_of_hash_functions rep b p = .ok q ∧ q.k = b := by
  unfold compute_number_of_hash_functions
  rw [if_pos hfam]
  exact ⟨_, rfl, rfl⟩

/-- Witness for C5: at 7 hash bits over the valid Hyperplane record, both
the dense and the sparse derivation set `k = 7`. -/
theorem hyperplane_k_equals_bits_witness :
    (∃ q, compute_number_of_hash_functions PointRep.Dense 7 pHPValid
      = .ok q ∧ q.k = 7) ∧
    (∃ q, compute_number_of_hash_functions PointRep.Sparse 7 pHPValid
      = .ok q ∧ q.k = 7) :=
  ⟨hyperplane_k_equals_bits PointRep.Dense 7 pHPValid (by decide) (by decide),
   hyperplane_k_equals_bits PointRep.Sparse 7 pHPValid (by decide)
     (by decide)⟩

/-- C6: `compute_number_of_hash_functions` with
`lsh_family = CrossPolytope` fails with a setup error exactly when the
governing dimension field is unset (≤ 0): `dimension` for dense points,
`feature_hashing_dimension` for sparse points. -/
theorem cross_polytope_compute_error_iff (rep : PointRep) (b : Int)
    (p : LSHConstructionParameters)
    (hfam : p.lsh_family = LSHFamily.CrossPolytope) :
    (∃ e, compute_number_of_hash_functions rep b p = .error e) ↔
      governing_dimension rep p ≤ 0 := by
  unfold compute_number_of_hash_functions governing_dimension
  rw [if_neg (by simp [hfam]), if_pos hfam]
  cases rep with
  | Dense =>
      by_cases h : p.dimension ≤ 0
      · rw [if_pos h]
        exact iff_of_true ⟨_, rfl⟩ h
      · rw [if_neg h]
        exact iff_of_false
          (fun hc => by obtain ⟨e, he⟩ := hc; exact Except.noConfusion he) h
  | Sparse =>
      by_cases h : p.feature_hashing_dimension ≤ 0
      · rw [if_pos h]
        exact iff_of_true ⟨_, rfl⟩ h
      · rw [if_neg h]
        exact iff_of_false
          (fun hc => by obtain ⟨e, he⟩ := hc; exact Except.noConfusion he) h

/-- Witness for C6: on the concrete CrossPolytope record, the sparse
derivation (governing field unset at `-1`) fails and the dense derivation
(dimension set to 100) does not. -/
theorem cross_polytope_compute_error_iff_witness :
    ((∃ e, compute_number_of_hash_functions PointRep.Sparse 5 pSparseCPUnset
        = .error e) ↔
      governing_dimension PointRep.Sparse pSparseCPUnset ≤ 0) ∧
    ((∃ e, compute_number_of_hash_functions PointRep.Dense 5 pSparseCPUnset
        = .error e) ↔
      governing_dimension PointRep.Dense pSparseCPUnset ≤ 0) :=
  ⟨cross_polytope_compute_error_iff PointRep.Sparse 5 pSparseCPUnset
      (by decide),
   cross_polytope_compute_error_iff PointRep.Dense 5 pSparseCPUnset
      (by decide)⟩

/-- Unfolding of `construct_cp_hash` at the dense specialization. -/
theorem construct_cp_hash_dense_eq (p : LSHConstructionParameters) :
    construct_cp_hash PointRep.Dense p = Except.ok (.cpDense
      { dimension := p.dimension, k := p.k, l := p.l,
        num_rotations := p.num_rotations,
        last_cp_dimension := p.last_cp_dimension,
        seed := p.seed ^^^ 93384688 }) := rfl

/-- Unfolding of `construct_cp_hash` at the sparse specialization. -/
theorem construct_cp_hash_sparse_eq (p : LSHConstructionParameters) :
    construct_cp_hash PointRep.Sparse p =
      if p.feature_hashing_dimension ≤ 0 then
        Except.error SetupError.featureHashingError
      else Except.ok (.cpSparse
        { dimension := p.dimension, k := p.k, l := p.l,
          num_rotations := p.num_rotations,
          feature_hashing_dimension := p.feature_hashing_dimension,
          last_cp_dimension := p.last_cp_dimension,
          seed := p.seed ^^^ 93384688 }) := rfl

/-- C7: for both hash families and both point representations, a successful
`construct_table` builds the hash function with internal random seed
`params.seed XOR 93384688`. -/
theorem construct_table_seed_xor {α : Type} (rep : PointRep)
    (points : List α) (p : LSHConstructionParameters) (w : Wrapper α)
    (h : construct_table rep points p = .ok w) :
    w.lsh.seed = p.seed ^^^ 93384688 := by
  unfold construct_table at h
  split_ifs at h
  · -- Hyperplane branch
    injection h with h2
    subst h2
    rfl
  · -- CrossPolytope branch
    cases hc : construct_cp_hash rep p with
    | error e =>
        rw [hc] at h
        exact Except.noConfusion h
    | ok lsh =>
        rw [hc] at h
        injection h with h2
        subst h2
        cases rep with
        | Dense =>
            rw [construct_cp_hash_dense_eq] at hc
            injection hc with h3
            subst h3
            rfl
        | Sparse =>
            rw [construct_cp_hash_sparse_eq] at hc
            split_ifs at hc
            injection hc with h3
            subst h3
            rfl

/-- Witness for C7: the concrete Hyperplane construction (outer seed 11)
yields a hash function seeded with `11 XOR 93384688`. -/
theorem construct_table_seed_xor_witness :
    wHPValid.lsh.seed = pHPValid.seed ^^^ 93384688 :=
  construct_table_seed_xor PointRep.Dense [] pHPValid wHPValid rfl

/-- C8: `construction_helper` allocates a hash-table factory producing
per-repetition tables sized `2 * points.size()` and composes exactly
`params.l` per-repetition tables into the composite hash table. -/
theorem construction_helper_sizes {α : Type} (points : List α)
    (p : LSHConstructionParameters) (lsh : LSHObj) :
    (construction_helper points p lsh).hash_table_factory_size
        = 2 * points.length ∧
    (construction_helper points p lsh).composite_num_tables = p.l :=
  ⟨rfl, rfl⟩

/-- C9: `compute_number_of_hash_functions` mutates only `k` for the
Hyperplane family and only `k` and `last_cp_dimension` for the
CrossPolytope family — `dimension`, `l`, `distance_function`, `lsh_family`,
`num_rotations`, `feature_hashing_dimension`, and `seed` are unchanged in
every non-throwing call — and a throwing call leaves the record
untouched. -/
theorem compute_number_of_hash_functions_frame (rep : PointRep) (b : Int)
    (p : LSHConstructionParameters) :
    (∀ q, compute_number_of_hash_functions rep b p = .ok q →
      q.dimension = p.dimension ∧ q.l = p.l ∧
      q.distance_function = p.distance_function ∧
      q.lsh_family = p.lsh_family ∧ q.num_rotations = p.num_rotations ∧
      q.feature_hashing_dimension = p.feature_hashing_dimension ∧
      q.seed = p.seed ∧
      (p.lsh_family = LSHFamily.Hyperplane →
        q.last_cp_dimension = p.last_cp_dimension)) ∧
    (∀ e, compute_number_of_hash_functions rep b p = .error e →
      paramsAfter p (compute_number_of_hash_functions rep b p) = p) := by
  constructor
  · intro q hq
    cases rep with
    | Dense =>
        simp only [compute_number_of_hash_functions] at hq
        split_ifs at hq with h1 h2 h3
        · injection hq with h4
          subst h4
          exact ⟨rfl, rfl, rfl, rfl, rfl, rfl, rfl, fun _ => rfl⟩
        · injection hq with h4
          subst h4
          refine ⟨rfl, rfl, rfl, rfl, rfl, rfl, rfl, fun hH => ?_⟩
          rw [hH] at h2
          exact absurd h2 (by decide)
    | Sparse =>
        simp only [compute_number_of_hash_functions] at hq
        split_ifs at hq with h1 h2 h3
        · injection hq with h4
          subst h4
          exact ⟨rfl, rfl, rfl, rfl, rfl, rfl, rfl, fun _ => rfl⟩
        · injection hq with h4
          subst h4
          refine ⟨rfl, rfl, rfl, rfl, rfl, rfl, rfl, fun hH => ?_⟩
          rw [hH] at h2
          exact absurd h2 (by decide)
  · intro e he
    rw [he]
    rfl

/-- Witness for C9: the dense CrossPolytope derivation at 7 hash bits over
the concrete record rewrites only `k` and `last_cp_dimension`. -/
theorem compute_number_of_hash_functions_frame_witness :
    pCPDerived.dimension = pSparseCPUnset.dimension ∧
    pCPDerived.l = pSparseCPUnset.l ∧
    pCPDerived.distance_function = pSparseCPUnset.distance_function ∧
    pCPDerived.lsh_family = pSparseCPUnset.lsh_family ∧
    pCPDerived.num_rotations = pSparseCPUnset.num_rotations ∧
    pCPDerived.feature_hashing_dimension
        = pSparseCPUnset.feature_hashing_dimension ∧
    pCPDerived.seed = pSparseCPUnset.seed ∧
    (pSparseCPUnset.lsh_family = LSHFamily.Hyperplane →
      pCPDerived.last_cp_dimension = pSparseCPUnset.last_cp_dimension) :=
  (compute_number_of_hash_functions_frame PointRep.Dense 7 pSparseCPUnset).1
    pCPDerived rfl

/-- C10: `set_max_num_candidates` succeeds for every value (including zero
and negatives) and `get_max_num_candidates` then returns exactly that
value; after a successful `set_num_probes p`, `get_num_probes` returns
exactly `p`; and neither getter mutates the facade state. -/
theorem knob_get_set_roundtrip {α : Type} (w : Wrapper α) (c q : Int)
    (hq : 1 ≤ q) :
    (get_max_num_candidates (set_max_num_candidates w c)).1 = c ∧
    (∃ w2, set_num_probes w q = .ok w2 ∧ (get_num_probes w2).1 = q) ∧
    (get_num_probes w).2 = w ∧
    (get_max_num_candidates w).2 = w := by
  refine ⟨rfl, ⟨{ w with num_probes := q }, ?_, rfl⟩, rfl, rfl⟩
  unfold set_num_probes
  rw [if_neg (by omega)]

/-- Witness for C10: on the concrete wrapper, setting the candidate cap to
`-5` round-trips, `set_num_probes 4` round-trips through the getter, and
the getters leave the state unchanged. -/
theorem knob_get_set_roundtrip_witness :
    (get_max_num_candidates (set_max_num_candidates wEx (-5))).1 = -5 ∧
    (∃ w2, set_num_probes wEx 4 = .ok w2 ∧ (get_num_probes w2).1 = 4) ∧
    (get_num_probes wEx).2 = wEx ∧
    (get_max_num_candidates wEx).2 = wEx :=
  knob_get_set_roundtrip wEx (-5) 4 (by decide)

end Falconn
